import Mathlib

/-!
Verification of the device-communication engine of the `bongoknob` driver.

The development shallowly embeds the three layers of the engine:

* the JSON message decoder (`src/protocol.rs`): the serde "untagged" decode of
  `Message`, the hand-written `EventVisitor`, and the `serialize_color` /
  `deserialize_color` pair.  Text records are modelled by their parsed JSON
  values (the JSON text parser itself is the external `serde_json` crate);
  the integer fragment of JSON suffices for this protocol, whose numeric
  fields are all unsigned integers.
* the byte-level line framer inside the worker loop (`src/device.rs`,
  `Device::create`): the `while let Some(pos) = ...` drain loop over the read
  buffer, including the `String::from_utf8(line).unwrap()` step, whose
  panic on invalid UTF-8 is modelled by returning `none`.
* the worker-loop iteration (`src/device.rs`, `Device::create`): command
  drain, correlation queue (`command_buffer`), and dispatch of a decoded
  line, with every `.unwrap()` that can fail modelled as a `panicked`
  outcome.  Crossbeam channel endpoints are modelled by their queue
  contents; a `Sender::send` fails exactly when the receiving side was
  dropped, which is an input (`destOpen`, `msgPipeOpen`) to an iteration.
-/

namespace Bongoknob

/-- JSON values (integer-number fragment), as produced by `serde_json`'s
parser; objects keep document order, as in serde's untagged `Content`. -/
inductive Json where
  | null
  | bool (b : Bool)
  | num (n : Nat)
  | str (s : String)
  | arr (elems : List Json)
  | obj (fields : List (String × Json))

/-- First value bound to key `k`, as a serde map visitor sees it. -/
def getField (fs : List (String × Json)) (k : String) : Option Json :=
  (fs.find? (fun p => p.1 == k)).map (·.2)

/-- Number of occurrences of key `k`; a derived serde struct visitor raises
`duplicate_field` when a known field occurs twice. -/
def countKey (fs : List (String × Json)) (k : String) : Nat :=
  (fs.filter (fun p => p.1 == k)).length

/-- Deserializing a `String` field. -/
def asStr : Json → Option String
  | .str s => some s
  | _ => none

/-- Deserializing a `bool` field. -/
def asBool : Json → Option Bool
  | .bool b => some b
  | _ => none

/-- Deserializing a `u8` field (out-of-range numbers are an error). -/
def asU8 : Json → Option Nat
  | .num n => if n < 2 ^ 8 then some n else none
  | _ => none

/-- Deserializing a `u32` field. -/
def asU32 : Json → Option Nat
  | .num n => if n < 2 ^ 32 then some n else none
  | _ => none

/-- Deserializing a `u64` field. -/
def asU64 : Json → Option Nat
  | .num n => if n < 2 ^ 64 then some n else none
  | _ => none

/-- Deserializing a `Vec<T>` field. -/
def asList (p : Json → Option α) : Json → Option (List α)
  | .arr xs => xs.mapM p
  | _ => none

/-- A required struct field: missing key or a duplicate of it is an error. -/
def reqField (fs : List (String × Json)) (k : String) (p : Json → Option α) :
    Option α :=
  if countKey fs k ≤ 1 then (getField fs k).bind p else none

/-- An `Option<T>` struct field (without `deserialize_with`): a missing key or
an explicit `null` is `None`; a present value must parse. -/
def optField (fs : List (String × Json)) (k : String) (p : Json → Option α) :
    Option (Option α) :=
  if countKey fs k ≤ 1 then
    match getField fs k with
    | none => some none
    | some .null => some none
    | some v => (p v).map some
  else none

end Bongoknob

namespace Bongoknob

/-- `DeviceError` record of `protocol.rs`. -/
structure DeviceError where
  error : String
  msg : Option String
deriving DecidableEq

/-- `Heartbeat` record of `protocol.rs`. -/
structure Heartbeat where
  idle : Nat
deriving DecidableEq

/-- `Saved` record of `protocol.rs`. -/
structure Saved where
  saved : Bool
deriving DecidableEq

/-- The `[bool; 4]` key-state array of `KeyEvent`. -/
structure Keys where
  k0 : Bool
  k1 : Bool
  k2 : Bool
  k3 : Bool
deriving DecidableEq

/-- `KeyEvent` of `protocol.rs`; ids are `u8`, modelled as `Nat` kept below
`256` by the decoder's `as u8` cast. -/
inductive KeyEvent where
  | down (keys : Keys) (id : Nat)
  | up (keys : Keys) (id : Nat)
deriving DecidableEq

/-- `Event` of `protocol.rs`. -/
inductive Event where
  | position (pos : Nat)
  | key (k : KeyEvent)
deriving DecidableEq

/-- `Profiles` record of `protocol.rs` (`current` is the wire name of
`current_profile`). -/
structure Profiles where
  profiles : Option (List String)
  current_profile : String
deriving DecidableEq

/-- `Color` of `protocol.rs`: three `u8` components modelled as `Nat`. -/
structure Color where
  r : Nat
  g : Nat
  b : Nat
deriving DecidableEq

/-- `KeyPress` of `protocol.rs` (`type` is the wire name of `key_type`). -/
structure KeyPress where
  key_type : String
deriving DecidableEq

/-- `KeyDef` of `protocol.rs`. -/
structure KeyDef where
  pressed : List KeyPress
deriving DecidableEq

/-- `Haptic` of `protocol.rs`. -/
structure Haptic where
  mode : Nat
  start_pos : Nat
  end_pos : Nat
  detent_count : Nat
  vernier : Nat
  kx_force : Bool
  output_ramp : Nat
  detent_strength : Nat
deriving DecidableEq

/-- `Knob` of `protocol.rs` (`type` is the wire name of `knob_type`). -/
structure Knob where
  value_min : Nat
  value_max : Nat
  angle_min : Nat
  angle_max : Nat
  wrap : Bool
  step : Nat
  key_state : Nat
  haptic : Haptic
  knob_type : String
  channel : Nat
  cc : Nat
deriving DecidableEq

/-- `Audio` of `protocol.rs`. -/
structure Audio where
  click_type : String
  key_click_type : String
  click_level : Nat
deriving DecidableEq

/-- `Profile` of `protocol.rs`; wire keys are camelCase. -/
structure Profile where
  version : Option Nat
  name : Option String
  desc : Option String
  profile_tag : Option String
  led_enable : Option Bool
  led_brightness : Option Nat
  led_mode : Option Nat
  pointer : Option Color
  primary : Option Color
  secondary : Option Color
  attract_distance : Option Nat
  feedback_strength : Option Nat
  bounce_strength : Option Nat
  haptic_click_strength : Option Nat
  button_a_idle : Option Color
  button_b_idle : Option Color
  button_c_idle : Option Color
  button_d_idle : Option Color
  button_a_press : Option Color
  button_b_press : Option Color
  button_c_press : Option Color
  button_d_press : Option Color
  keys : Option (List KeyDef)
  knob : Option (List Knob)
  gui_enable : Option Bool
  audio : Option Audio
deriving DecidableEq

/-- `ProfileRoot` record of `protocol.rs`. -/
structure ProfileRoot where
  profile : Profile
deriving DecidableEq

/-- `MidiSettings` of `protocol.rs` (`in` is the wire name of `input`). -/
structure MidiSettings where
  input : Bool
  out : Bool
  thru : Bool
  route : Bool
  nano : Bool
deriving DecidableEq

/-- `Settings` of `protocol.rs`; wire keys are camelCase, all optional. -/
structure Settings where
  debug : Option Bool
  led_max_brightness : Option Nat
  max_velocity : Option Nat
  max_voltage : Option Nat
  device_orientation : Option Nat
  device_name : Option String
  wifi_enabled : Option Bool
  serial_number : Option String
  firmware_version : Option String
  midi_usb : Option MidiSettings
  midi2 : Option MidiSettings
  sysex_id : Option Nat
  idle_timeout : Option Nat
deriving DecidableEq

/-- `SettingsRoot` record of `protocol.rs`. -/
structure SettingsRoot where
  settings : Settings
deriving DecidableEq

/-- `Message` of `protocol.rs`: the untagged enum, variants in source order. -/
inductive Message where
  | error (e : DeviceError)
  | heartbeat (h : Heartbeat)
  | saved (s : Saved)
  | event (e : Event)
  | profiles (p : Profiles)
  | profile (p : ProfileRoot)
  | settings (s : SettingsRoot)
deriving DecidableEq

end Bongoknob

namespace Bongoknob

/-- Derived deserializer of `DeviceError`: required `error`, optional `msg`. -/
def DeviceError.fromJson : Json → Option DeviceError
  | .obj fs =>
    match reqField fs "error" asStr, optField fs "msg" asStr with
    | some e, some m => some ⟨e, m⟩
    | _, _ => none
  | _ => none

/-- Derived deserializer of `Heartbeat`: required `idle : u64`. -/
def Heartbeat.fromJson : Json → Option Heartbeat
  | .obj fs => (reqField fs "idle" asU64).map fun n => ⟨n⟩
  | _ => none

/-- Derived deserializer of `Saved`: required `saved : bool`. -/
def Saved.fromJson : Json → Option Saved
  | .obj fs => (reqField fs "saved" asBool).map fun b => ⟨b⟩
  | _ => none

/-- Accumulator of `EventVisitor::visit_map`: the four optional fields. -/
structure EventAcc where
  p : Option Nat
  ks : Option Nat
  kd : Option Nat
  ku : Option Nat

/-- The entry loop of `EventVisitor::visit_map`: fields are visited in
document order; a duplicate of a known field or any unknown field is an
error; `p` parses as `u64`, `ks`/`kd`/`ku` as `u32`. -/
def visitEventFields : List (String × Json) → EventAcc → Option EventAcc
  | [], acc => some acc
  | (k, v) :: rest, acc =>
    if k = "p" then
      if acc.p.isSome then none
      else (asU64 v).bind fun n => visitEventFields rest { acc with p := some n }
    else if k = "ks" then
      if acc.ks.isSome then none
      else (asU32 v).bind fun n => visitEventFields rest { acc with ks := some n }
    else if k = "kd" then
      if acc.kd.isSome then none
      else (asU32 v).bind fun n => visitEventFields rest { acc with kd := some n }
    else if k = "ku" then
      if acc.ku.isSome then none
      else (asU32 v).bind fun n => visitEventFields rest { acc with ku := some n }
    else none

/-- The `ks` bit tests of `visit_map`:
`[ks & 1 != 0, ks & 2 != 0, ks & 4 != 0, ks & 8 != 0]`, all-false when `ks`
is absent. -/
def keysOfKs : Option Nat → Keys
  | some ks =>
      ⟨Nat.land ks 1 != 0, Nat.land ks 2 != 0, Nat.land ks 4 != 0,
        Nat.land ks 8 != 0⟩
  | none => ⟨false, false, false, false⟩

/-- The tail of `visit_map`: `p` wins, then `kd` (a `Down`), then `ku`
(an `Up`); ids go through the `as u8` cast, i.e. reduction mod `256`;
with none of them present the visitor reports `missing_field`. -/
def eventOfAcc (acc : EventAcc) : Option Event :=
  match acc.p with
  | some pos => some (.position pos)
  | none =>
    let keys := keysOfKs acc.ks
    match acc.kd with
    | some kd => some (.key (.down keys (kd % 256)))
    | none =>
      match acc.ku with
      | some ku => some (.key (.up keys (ku % 256)))
      | none => none

/-- `Deserialize for Event`: `deserialize_map` with `EventVisitor` (anything
but a map is an error). -/
def Event.fromJson : Json → Option Event
  | .obj fs => (visitEventFields fs ⟨none, none, none, none⟩).bind eventOfAcc
  | _ => none

/-- Derived deserializer of `Profiles`: optional `profiles`, required
`current`. -/
def Profiles.fromJson : Json → Option Profiles
  | .obj fs =>
    match optField fs "profiles" (asList asStr), reqField fs "current" asStr with
    | some ps, some cur => some ⟨ps, cur⟩
    | _, _ => none
  | _ => none

/-- `deserialize_color` of `protocol.rs`: `null` is `None`; a `u64` is split
into `(v >> 16) & 0xFF`, `(v >> 8) & 0xFF`, `v & 0xFF`; a sequence must hold
exactly three `u8` values; anything else is an error. -/
def deserialize_color : Json → Option (Option Color)
  | .null => some none
  | .num n =>
      if n < 2 ^ 64 then
        some (some ⟨(n >>> 16) % 256, (n >>> 8) % 256, n % 256⟩)
      else none
  | .arr [jr, jg, jb] => do
      let r ← asU8 jr
      let g ← asU8 jg
      let b ← asU8 jb
      some (some ⟨r, g, b⟩)
  | _ => none

/-- `serialize_color` of `protocol.rs`: `Some` becomes the 3-element array
`[r, g, b]`, `None` becomes `null`. -/
def serialize_color : Option Color → Json
  | some c => .arr [.num c.r, .num c.g, .num c.b]
  | none => .null

/-- Derived deserializer of `KeyPress`: required `type`. -/
def KeyPress.fromJson : Json → Option KeyPress
  | .obj fs => (reqField fs "type" asStr).map fun t => ⟨t⟩
  | _ => none

/-- Derived deserializer of `KeyDef`: required `pressed`. -/
def KeyDef.fromJson : Json → Option KeyDef
  | .obj fs => (reqField fs "pressed" (asList KeyPress.fromJson)).map fun l => ⟨l⟩
  | _ => none

/-- Derived deserializer of `Haptic`: all fields required. -/
def Haptic.fromJson : Json → Option Haptic
  | .obj fs =>
    match reqField fs "mode" asU8, reqField fs "startPos" asU8,
      reqField fs "endPos" asU8, reqField fs "detentCount" asU8,
      reqField fs "vernier" asU8, reqField fs "kxForce" asBool,
      reqField fs "outputRamp" asU32, reqField fs "detentStrength" asU8 with
    | some mode, some sp, some ep, some dc, some v, some kx, some ramp,
      some ds => some ⟨mode, sp, ep, dc, v, kx, ramp, ds⟩
    | _, _, _, _, _, _, _, _ => none
  | _ => none

/-- Derived deserializer of `Knob`: all fields required. -/
def Knob.fromJson : Json → Option Knob
  | .obj fs =>
    match reqField fs "valueMin" asU8, reqField fs "valueMax" asU8,
      reqField fs "angleMin" asU8, reqField fs "angleMax" asU8,
      reqField fs "wrap" asBool, reqField fs "step" asU8,
      reqField fs "keyState" asU8, reqField fs "haptic" Haptic.fromJson,
      reqField fs "type" asStr, reqField fs "channel" asU8,
      reqField fs "cc" asU8 with
    | some vmin, some vmax, some amin, some amax, some wrap, some step,
      some kstate, some haptic, some ktype, some channel, some cc =>
        some ⟨vmin, vmax, amin, amax, wrap, step, kstate, haptic, ktype,
          channel, cc⟩
    | _, _, _, _, _, _, _, _, _, _, _ => none
  | _ => none

/-- Derived deserializer of `Audio`: all fields required. -/
def Audio.fromJson : Json → Option Audio
  | .obj fs =>
    match reqField fs "clickType" asStr, reqField fs "keyClickType" asStr,
      reqField fs "clickLevel" asU8 with
    | some ct, some kct, some cl => some ⟨ct, kct, cl⟩
    | _, _, _ => none
  | _ => none

/-- Derived deserializer of `Profile`.  The color fields carry
`deserialize_with = "deserialize_color"`, which in serde makes the key
required (a missing key is an error) while the value may still be `null`;
the plain `Option` fields may be absent. -/
def Profile.fromJson : Json → Option Profile
  | .obj fs =>
    match optField fs "version" asU8, optField fs "name" asStr,
      optField fs "desc" asStr, optField fs "profileTag" asStr,
      optField fs "ledEnable" asBool, optField fs "ledBrightness" asU8,
      optField fs "ledMode" asU8, reqField fs "pointer" deserialize_color,
      reqField fs "primary" deserialize_color,
      reqField fs "secondary" deserialize_color,
      optField fs "attractDistance" asU32,
      optField fs "feedbackStrength" asU32,
      optField fs "bounceStrength" asU32,
      optField fs "hapticClickStrength" asU32,
      reqField fs "buttonAIdle" deserialize_color,
      reqField fs "buttonBIdle" deserialize_color,
      reqField fs "buttonCIdle" deserialize_color,
      reqField fs "buttonDIdle" deserialize_color,
      reqField fs "buttonAPress" deserialize_color,
      reqField fs "buttonBPress" deserialize_color,
      reqField fs "buttonCPress" deserialize_color,
      reqField fs "buttonDPress" deserialize_color,
      optField fs "keys" (asList KeyDef.fromJson),
      optField fs "knob" (asList Knob.fromJson),
      optField fs "guiEnable" asBool, optField fs "audio" Audio.fromJson with
    | some version, some name, some desc, some ptag, some lede, some ledb,
      some ledm, some pointer, some primary, some secondary, some attract,
      some feedback, some bounce, some hclick, some bai, some bbi, some bci,
      some bdi, some bap, some bbp, some bcp, some bdp, some keys, some knob,
      some gui, some audio =>
        some ⟨version, name, desc, ptag, lede, ledb, ledm, pointer, primary,
          secondary, attract, feedback, bounce, hclick, bai, bbi, bci, bdi,
          bap, bbp, bcp, bdp, keys, knob, gui, audio⟩
    | _, _, _, _, _, _, _, _, _, _, _, _, _, _, _, _, _, _, _, _, _, _, _,
      _, _, _ => none
  | _ => none

/-- Derived deserializer of `ProfileRoot`: required `profile`. -/
def ProfileRoot.fromJson : Json → Option ProfileRoot
  | .obj fs => (reqField fs "profile" Profile.fromJson).map fun p => ⟨p⟩
  | _ => none

/-- Derived deserializer of `MidiSettings`: all fields required; `in` is the
wire name of `input`. -/
def MidiSettings.fromJson : Json → Option MidiSettings
  | .obj fs =>
    match reqField fs "in" asBool, reqField fs "out" asBool,
      reqField fs "thru" asBool, reqField fs "route" asBool,
      reqField fs "nano" asBool with
    | some i, some o, some t, some r, some n => some ⟨i, o, t, r, n⟩
    | _, _, _, _, _ => none
  | _ => none

/-- Derived deserializer of `Settings`: all fields optional. -/
def Settings.fromJson : Json → Option Settings
  | .obj fs =>
    match optField fs "debug" asBool, optField fs "ledMaxBrightness" asU8,
      optField fs "maxVelocity" asU8, optField fs "maxVoltage" asU8,
      optField fs "deviceOrientation" asU8, optField fs "deviceName" asStr,
      optField fs "wifiEnabled" asBool, optField fs "serialNumber" asStr,
      optField fs "firmwareVersion" asStr,
      optField fs "midiUsb" MidiSettings.fromJson,
      optField fs "midi2" MidiSettings.fromJson, optField fs "sysexId" asU8,
      optField fs "idleTimeout" asU32 with
    | some debug, some lmb, some mvel, some mvol, some dor, some dname,
      some wifi, some serial, some fw, some musb, some m2, some sysex,
      some idle =>
        some ⟨debug, lmb, mvel, mvol, dor, dname, wifi, serial, fw, musb,
          m2, sysex, idle⟩
    | _, _, _, _, _, _, _, _, _, _, _, _, _ => none
  | _ => none

/-- Derived deserializer of `SettingsRoot`: required `settings`. -/
def SettingsRoot.fromJson : Json → Option SettingsRoot
  | .obj fs => (reqField fs "settings" Settings.fromJson).map fun s => ⟨s⟩
  | _ => none

/-- The untagged decode of `Message` (`#[serde(untagged)]` together with
`TryFrom<&str> for Message`): variants are attempted in declaration order —
Error, Heartbeat, Saved, Event, Profiles, Profile, Settings — and the first
success wins; decoding fails only when every variant fails. -/
def Message.fromJson (j : Json) : Option Message :=
  match DeviceError.fromJson j with
  | some e => some (.error e)
  | none =>
  match Heartbeat.fromJson j with
  | some h => some (.heartbeat h)
  | none =>
  match Saved.fromJson j with
  | some s => some (.saved s)
  | none =>
  match Event.fromJson j with
  | some ev => some (.event ev)
  | none =>
  match Profiles.fromJson j with
  | some p => some (.profiles p)
  | none =>
  match ProfileRoot.fromJson j with
  | some p => some (.profile p)
  | none =>
  match SettingsRoot.fromJson j with
  | some s => some (.settings s)
  | none => none

end Bongoknob

namespace Bongoknob

/-! ## Line framer (the read step of the worker loop in `Device::create`)

Bytes are naturals below 256; the newline byte is `10`.  The source drains
the buffer in a `while let Some(pos) = buffer.iter().position(|&x| x == b'\n')`
loop, each round removing `buffer[..=pos]` as one record, converting it with
`String::from_utf8(line).unwrap()`, and storing it in the single `line_buffer:
Option<String>`.  The `.unwrap()` panic on invalid UTF-8 is modelled by the
loop returning `none`. -/

/-- `Iterator::position`: index of the first element satisfying the
predicate. -/
def position (pred : Nat → Bool) : List Nat → Option Nat
  | [] => none
  | b :: rest => if pred b then some 0 else (position pred rest).map (· + 1)

theorem position_lt_length {pred : Nat → Bool} :
    ∀ {l : List Nat} {i : Nat}, position pred l = some i → i < l.length := by
  intro l
  induction l with
  | nil => intro i h; simp [position] at h
  | cons b rest ih =>
    intro i h
    simp only [position] at h
    split at h
    · injection h with h0
      subst h0
      simp
    · obtain ⟨j, hj, hf⟩ := Option.map_eq_some'.mp h
      subst hf
      have := ih hj
      simp only [List.length_cons]
      omega

/-- A UTF-8 continuation byte (`0x80 ..= 0xBF`). -/
def contByte (b : Nat) : Bool := decide (128 ≤ b) && decide (b ≤ 191)

/-- Validity of a byte sequence as UTF-8 (RFC 3629 table, the check behind
`String::from_utf8`). -/
def validUtf8 : List Nat → Bool
  | [] => true
  | b :: rest =>
    if b ≤ 127 then validUtf8 rest
    else if 194 ≤ b ∧ b ≤ 223 then
      match rest with
      | c1 :: r => contByte c1 && validUtf8 r
      | [] => false
    else if b = 224 then
      match rest with
      | c1 :: c2 :: r =>
          (decide (160 ≤ c1) && decide (c1 ≤ 191)) && contByte c2 && validUtf8 r
      | _ => false
    else if (225 ≤ b ∧ b ≤ 236) ∨ b = 238 ∨ b = 239 then
      match rest with
      | c1 :: c2 :: r => contByte c1 && contByte c2 && validUtf8 r
      | _ => false
    else if b = 237 then
      match rest with
      | c1 :: c2 :: r =>
          (decide (128 ≤ c1) && decide (c1 ≤ 159)) && contByte c2 && validUtf8 r
      | _ => false
    else if b = 240 then
      match rest with
      | c1 :: c2 :: c3 :: r =>
          (decide (144 ≤ c1) && decide (c1 ≤ 191)) && contByte c2 && contByte c3
            && validUtf8 r
      | _ => false
    else if 241 ≤ b ∧ b ≤ 243 then
      match rest with
      | c1 :: c2 :: c3 :: r => contByte c1 && contByte c2 && contByte c3 && validUtf8 r
      | _ => false
    else if b = 244 then
      match rest with
      | c1 :: c2 :: c3 :: r =>
          (decide (128 ≤ c1) && decide (c1 ≤ 143)) && contByte c2 && contByte c3
            && validUtf8 r
      | _ => false
    else false

/-- The `while let Some(pos) = buffer.iter().position(..)` drain loop of the
read step: each round removes one newline-terminated record from the front of
the buffer, unwraps it as UTF-8 (`none` models the panic), and OVERWRITES the
single `line_buffer` with it.  Returns the remaining buffer and the final
`line_buffer`. -/
def drainLoop (buf : List Nat) (lineBuf : Option (List Nat)) :
    Option (List Nat × Option (List Nat)) :=
  match h : position (fun x => x == 10) buf with
  | some pos =>
    let line := buf.take (pos + 1)
    if validUtf8 line then drainLoop (buf.drop (pos + 1)) (some line)
    else none
  | none => some (buf, lineBuf)
termination_by buf.length
decreasing_by
  have hlt := position_lt_length h
  simp only [List.length_drop]
  omega

/-- The whole read step on a successful `port.read`: the chunk is appended to
the held buffer and the drain loop runs.  At the top of an iteration
`line_buffer` is always `None` (it is consumed and reset at the end of the
previous iteration). -/
def readStep (buffer chunk : List Nat) : Option (List Nat × Option (List Nat)) :=
  drainLoop (buffer ++ chunk) none

end Bongoknob

namespace Bongoknob

/-! ## Worker-loop iteration (`Device::create` in `device.rs`)

The correlation queue `command_buffer` holds reply destinations, modelled by
identifiers.  Channel failure conditions are inputs: crossbeam's
`Sender::send` fails exactly when every receiver of the channel was dropped,
and each `.unwrap()` on a failed operation is modelled as the `panicked`
outcome.  The decoded content of `line_buffer` is an input of the iteration:
`none` when no complete record arrived, `some none` when the record failed
to decode (`Message::try_from` returned `Err`), `some (some m)` otherwise. -/

/-- Result value sent to a pending destination
(`Result<Message, Error>` with `Error::CommandError`). -/
inductive Reply where
  | ok (m : Message)
  | commandError (error : String) (msg : Option String)
deriving DecidableEq

/-- Observable actions of one iteration, in program order. -/
inductive Effect where
  | delivered (dest : Nat) (r : Reply)
  | published (m : Message)
  | loggedDeviceError (e : DeviceError)
  | loggedParseError
deriving DecidableEq

/-- Outcome of `cmd_rx.try_recv()`. -/
inductive CmdRecv where
  | ok (dest : Option Nat)
  | empty
  | disconnected

/-- Environment and channel data consumed by one loop iteration. -/
structure IterInput where
  line : Option (Option Message)
  cmdRecv : CmdRecv
  writeOk : Bool
  destOpen : Nat → Bool
  msgPipeOpen : Bool

/-- Outcome of one loop iteration.  `exitLoop` would be a `break` of the
worker loop; the constructor exists so that termination of the loop is
expressible, but the body of the source loop contains no `break` at all (in
particular the `Disconnected` arm is empty), so the translation never
produces it. -/
inductive Outcome where
  | next (queue : List Nat) (effects : List Effect)
  | panicked
  | exitLoop

/-- The command-drain step: on `Ok((command, tx))` the destination (if any)
is pushed before the write; the write/flush `.unwrap()`s panic when the
transport write fails.  `Empty` does nothing, and the `Disconnected` arm of
the source is empty — no `break`. -/
def cmdStep (queue : List Nat) (inp : IterInput) : Option (List Nat) :=
  match inp.cmdRecv with
  | .ok dest =>
    let q := match dest with
      | some d => queue ++ [d]
      | none => queue
    if inp.writeOk then some q else none
  | .empty => some queue
  | .disconnected => some queue

/-- The `process buffered message` step: `Heartbeat`/`Event` go to the
message pipe (`send(..).unwrap()`); `Error` resolves the oldest pending
destination with a `CommandError` or is logged when the queue is empty; any
other variant resolves the oldest pending destination or is silently
dropped when the queue is empty.  A `send` to a destination whose receiver
was dropped returns `Err`, and the `.unwrap()` panics. -/
def lineStep (queue : List Nat) (inp : IterInput) :
    Option (List Nat × List Effect) :=
  match inp.line with
  | none => some (queue, [])
  | some none => some (queue, [.loggedParseError])
  | some (some m) =>
    match m with
    | .heartbeat _ | .event _ =>
      if inp.msgPipeOpen then some (queue, [.published m]) else none
    | .error e =>
      match queue with
      | d :: rest =>
        if inp.destOpen d then
          some (rest, [.delivered d (.commandError e.error e.msg)])
        else none
      | [] => some ([], [.loggedDeviceError e])
    | _ =>
      match queue with
      | d :: rest =>
        if inp.destOpen d then some (rest, [.delivered d (.ok m)]) else none
      | [] => some (queue, [])

/-- One full iteration of the worker loop: command drain, then processing of
the buffered line (the byte-level read step is modelled separately by
`readStep`; `inp.line` carries its decoded outcome). -/
def iterate (queue : List Nat) (inp : IterInput) : Outcome :=
  match cmdStep queue inp with
  | none => .panicked
  | some q1 =>
    match lineStep q1 inp with
    | none => .panicked
    | some (q2, effs) => .next q2 effs

/-- Whether an iteration outcome ends the loop. -/
def isExit : Outcome → Bool
  | .exitLoop => true
  | _ => false

/-- Several iterations in sequence, accumulating effects; `none` when some
iteration panicked or broke the loop. -/
def run (queue : List Nat) : List IterInput → Option (List Nat × List Effect)
  | [] => some (queue, [])
  | i :: rest =>
    match iterate queue i with
    | .next q effs => (run q rest).map fun p => (p.1, effs ++ p.2)
    | _ => none

/-- An iteration that only receives a command expecting a reply, with a
healthy transport and all channels open. -/
def cmdInput (d : Nat) : IterInput :=
  ⟨none, .ok (some d), true, fun _ => true, true⟩

/-- An iteration that only processes one decoded message, with all channels
open. -/
def lineInput (m : Message) : IterInput :=
  ⟨some (some m), .empty, true, fun _ => true, true⟩

/-- `Heartbeat` and `Event` are the unsolicited variants; every other
variant is treated as a command reply. -/
def isUnsolicited : Message → Bool
  | .heartbeat _ | .event _ => true
  | _ => false

/-- Whether a message is the `Error` variant. -/
def isErrorMsg : Message → Bool
  | .error _ => true
  | _ => false

/-- The value a reply-bearing message resolves a pending destination with. -/
def toReply : Message → Reply
  | .error e => .commandError e.error e.msg
  | m => .ok m

end Bongoknob

namespace Bongoknob

/-! ## The message channel (`msg_tx` / `msg_rx` and `Device::subscribe`)

`messages` is a crossbeam `Receiver<Message>`; `Device::subscribe` returns
`self.messages.clone()`.  Cloning a crossbeam receiver yields another handle
to the SAME multi-producer multi-consumer queue: every receive, through any
handle, removes the value for all of them.  The channel is therefore
modelled by its queue of not-yet-received values, shared by all
subscribers. -/

/-- The worker publishing a message (`message_pipe.send`). -/
def publishQ (q : List Message) (m : Message) : List Message := q ++ [m]

/-- A receive through ANY receiver handle: pops the oldest value off the
shared queue. -/
def recvQ : List Message → Option (Message × List Message)
  | [] => none
  | m :: rest => some (m, rest)

/-- `Device::subscribe`: `self.messages.clone()` — a new handle onto the
same shared queue, not an independent stream. -/
def subscribeClone (sharedQueue : List Message) : List Message := sharedQueue

/-- Worker publishes one heartbeat; subscriber A receives, then subscriber B
(a clone of the same receiver) tries to receive from the resulting state. -/
def twoSubscriberScenario : Option Message × Option Message :=
  let q0 := publishQ [] (.heartbeat ⟨1⟩)
  match recvQ (subscribeClone q0) with
  | some (mA, q1) => (some mA, (recvQ (subscribeClone q1)).map Prod.fst)
  | none => (none, (recvQ q0).map Prod.fst)

/-- Values received across all subscribers combined, in order, when the
queue is drained. -/
def drainAllQ : List Message → List Message
  | [] => []
  | m :: rest => m :: drainAllQ rest

end Bongoknob

namespace Bongoknob

/-! ## Generic unfolding lemmas for the framer drain loop -/

theorem drainLoop_step (buf : List Nat) (lb : Option (List Nat)) (pos : Nat)
    (hp : position (fun x => x == 10) buf = some pos) :
    drainLoop buf lb =
      if validUtf8 (buf.take (pos + 1)) then
        drainLoop (buf.drop (pos + 1)) (some (buf.take (pos + 1)))
      else none := by
  rw [drainLoop.eq_def]
  split
  · next pos2 h2 =>
      rw [hp] at h2
      injection h2 with h3
      subst h3
      rfl
  · next h2 =>
      rw [hp] at h2
      exact Option.noConfusion h2

theorem drainLoop_done (buf : List Nat) (lb : Option (List Nat))
    (hp : position (fun x => x == 10) buf = none) :
    drainLoop buf lb = some (buf, lb) := by
  rw [drainLoop.eq_def]
  split
  · next pos2 h2 =>
      rw [hp] at h2
      exact Option.noConfusion h2
  · rfl

/-! ## C1 — line framing of a multi-record read -/

/-- C1: the claim states that a single read holding two newline-terminated
records dispatches two decoded messages.  Evaluating the read step of the
worker loop on the chunk `"A\nB\n"` (bytes `[65, 10, 66, 10]`) shows the
opposite: the drain loop leaves only the LAST record `"B\n"` in the single
`line_buffer`, so the first record is silently discarded and at most one
message can be dispatched in this iteration.  This is the overwritten
line-buffer defect the specification itself flags as a bug to fix. -/
theorem c1_second_record_overwrites_first :
    readStep [] [65, 10, 66, 10] = some ([], some [66, 10]) := by
  unfold readStep
  simp only [List.nil_append]
  rw [drainLoop_step [65, 10, 66, 10] none 1 rfl, if_pos (by decide)]
  show drainLoop [66, 10] (some [65, 10]) = _
  rw [drainLoop_step [66, 10] (some [65, 10]) 1 rfl, if_pos (by decide)]
  show drainLoop [] (some [66, 10]) = _
  rw [drainLoop_done [] (some [66, 10]) rfl]

/-! ## C2 — untagged decode priority -/

/-- C2: decoding attempts the `Message` variants in the fixed priority order
Error, Heartbeat, Saved, Event, Profiles, Profile, Settings, returns the
first variant that parses, and fails exactly when every variant fails; in
particular the object for `{"error":"bad","msg":"oops"}` decodes to
`DeviceError{error:"bad", msg:Some("oops")}`. -/
theorem c2_untagged_priority :
    Message.fromJson (.obj [("error", .str "bad"), ("msg", .str "oops")]) =
      some (.error ⟨"bad", some "oops"⟩) ∧
    (∀ (j : Json) (e : DeviceError), DeviceError.fromJson j = some e →
      Message.fromJson j = some (.error e)) ∧
    (∀ (j : Json) (h : Heartbeat), DeviceError.fromJson j = none →
      Heartbeat.fromJson j = some h →
      Message.fromJson j = some (.heartbeat h)) ∧
    (∀ (j : Json) (s : Saved), DeviceError.fromJson j = none →
      Heartbeat.fromJson j = none → Saved.fromJson j = some s →
      Message.fromJson j = some (.saved s)) ∧
    (∀ (j : Json) (ev : Event), DeviceError.fromJson j = none →
      Heartbeat.fromJson j = none → Saved.fromJson j = none →
      Event.fromJson j = some ev → Message.fromJson j = some (.event ev)) ∧
    (∀ (j : Json) (p : Profiles), DeviceError.fromJson j = none →
      Heartbeat.fromJson j = none → Saved.fromJson j = none →
      Event.fromJson j = none → Profiles.fromJson j = some p →
      Message.fromJson j = some (.profiles p)) ∧
    (∀ (j : Json) (p : ProfileRoot), DeviceError.fromJson j = none →
      Heartbeat.fromJson j = none → Saved.fromJson j = none →
      Event.fromJson j = none → Profiles.fromJson j = none →
      ProfileRoot.fromJson j = some p →
      Message.fromJson j = some (.profile p)) ∧
    (∀ (j : Json) (s : SettingsRoot), DeviceError.fromJson j = none →
      Heartbeat.fromJson j = none → Saved.fromJson j = none →
      Event.fromJson j = none → Profiles.fromJson j = none →
      ProfileRoot.fromJson j = none → SettingsRoot.fromJson j = some s →
      Message.fromJson j = some (.settings s)) ∧
    (∀ j : Json, Message.fromJson j = none ↔
      DeviceError.fromJson j = none ∧ Heartbeat.fromJson j = none ∧
      Saved.fromJson j = none ∧ Event.fromJson j = none ∧
      Profiles.fromJson j = none ∧ ProfileRoot.fromJson j = none ∧
      SettingsRoot.fromJson j = none) := by
  refine ⟨rfl, ?_, ?_, ?_, ?_, ?_, ?_, ?_, ?_⟩
  · intro j e h1
    simp [Message.fromJson, h1]
  · intro j h h1 h2
    simp [Message.fromJson, h1, h2]
  · intro j s h1 h2 h3
    simp [Message.fromJson, h1, h2, h3]
  · intro j ev h1 h2 h3 h4
    simp [Message.fromJson, h1, h2, h3, h4]
  · intro j p h1 h2 h3 h4 h5
    simp [Message.fromJson, h1, h2, h3, h4, h5]
  · intro j p h1 h2 h3 h4 h5 h6
    simp [Message.fromJson, h1, h2, h3, h4, h5, h6]
  · intro j s h1 h2 h3 h4 h5 h6 h7
    simp [Message.fromJson, h1, h2, h3, h4, h5, h6, h7]
  · intro j
    unfold Message.fromJson
    cases DeviceError.fromJson j <;> cases Heartbeat.fromJson j <;>
      cases Saved.fromJson j <;> cases Event.fromJson j <;>
      cases Profiles.fromJson j <;> cases ProfileRoot.fromJson j <;>
      cases SettingsRoot.fromJson j <;> simp

/-- C2 witness: the priority statement applied at concrete inputs — the
error-object example, and `{"idle":7}` decoding as `Heartbeat` through the
second-priority clause. -/
theorem c2_untagged_priority_witness :
    Message.fromJson (.obj [("error", .str "bad"), ("msg", .str "oops")]) =
      some (.error ⟨"bad", some "oops"⟩) ∧
    Message.fromJson (.obj [("idle", .num 7)]) = some (.heartbeat ⟨7⟩) :=
  ⟨c2_untagged_priority.1,
    c2_untagged_priority.2.2.1 (.obj [("idle", .num 7)]) ⟨7⟩ rfl rfl⟩

end Bongoknob

namespace Bongoknob

/-! ## C3 — strict FIFO reply correlation -/

theorem iterate_cmd (q : List Nat) (d : Nat) :
    iterate q (cmdInput d) = .next (q ++ [d]) [] := rfl

theorem run_cmds (ds : List Nat) (q : List Nat) :
    run q (ds.map cmdInput) = some (q ++ ds, []) := by
  induction ds generalizing q with
  | nil => simp [run]
  | cons d ds ih =>
    simp only [List.map_cons, run, iterate_cmd]
    rw [ih (q ++ [d])]
    simp

theorem iterate_reply (m : Message) (d : Nat) (q : List Nat)
    (hm : isUnsolicited m = false) :
    iterate (d :: q) (lineInput m) = .next q [.delivered d (toReply m)] := by
  cases m <;>
    simp [iterate, cmdStep, lineStep, lineInput, toReply, isUnsolicited]
      at hm ⊢

theorem run_replies (ms : List Message) (ds q : List Nat)
    (hlen : ms.length = ds.length)
    (hrb : ∀ m ∈ ms, isUnsolicited m = false) :
    run (ds ++ q) (ms.map lineInput) =
      some (q, (ds.zip ms).map fun p => Effect.delivered p.1 (toReply p.2)) := by
  induction ms generalizing ds q with
  | nil =>
    cases ds with
    | nil => simp [run]
    | cons d ds2 => simp at hlen
  | cons m ms ih =>
    cases ds with
    | nil => simp at hlen
    | cons d ds2 =>
      have hm : isUnsolicited m = false := hrb m (by simp)
      have hrest : ∀ m2 ∈ ms, isUnsolicited m2 = false := by
        intro m2 hm2
        exact hrb m2 (by simp [hm2])
      have hlen2 : ms.length = ds2.length := by simpa using hlen
      simp only [List.map_cons, List.cons_append, run,
        iterate_reply m d (ds2 ++ q) hm, ih ds2 q hlen2 hrest]
      simp

theorem run_append (xs ys : List IterInput) (q : List Nat) :
    run q (xs ++ ys) = (run q xs).bind fun p =>
      (run p.1 ys).map fun p2 => (p2.1, p.2 ++ p2.2) := by
  induction xs generalizing q with
  | nil => simp [run]
  | cons x xs ih =>
    simp only [List.cons_append]
    cases hit : iterate q x with
    | next q2 effs =>
      have l1 : run q (x :: (xs ++ ys)) =
          (run q2 (xs ++ ys)).map fun p => (p.1, effs ++ p.2) := by
        simp [run, hit]
      have l2 : run q (x :: xs) =
          (run q2 xs).map fun p => (p.1, effs ++ p.2) := by
        simp [run, hit]
      rw [l1, l2, ih q2]
      cases run q2 xs with
      | none => simp
      | some p =>
        show Option.map (fun p3 => (p3.1, effs ++ p3.2))
            (Option.map (fun p2 => (p2.1, p.2 ++ p2.2)) (run p.1 ys)) =
          Option.map (fun p2 => (p2.1, (effs ++ p.2) ++ p2.2)) (run p.1 ys)
        cases run p.1 ys with
        | none => rfl
        | some p2 => simp [List.append_assoc]
    | panicked =>
      have l1 : run q (x :: (xs ++ ys)) = none := by simp [run, hit]
      have l2 : run q (x :: xs) = none := by simp [run, hit]
      rw [l1, l2]
      simp
    | exitLoop =>
      have l1 : run q (x :: (xs ++ ys)) = none := by simp [run, hit]
      have l2 : run q (x :: xs) = none := by simp [run, hit]
      rw [l1, l2]
      simp

/-- C3: destinations are appended to the correlation queue at send time and
each reply-bearing message resolves the earliest-pushed pending destination,
so when commands with destinations `ds` are sent before any reply and the
device then answers with exactly as many reply-bearing messages `ms`, the
i-th message is delivered to the i-th destination. -/
theorem c3_fifo_correlation (ds : List Nat) (ms : List Message)
    (hlen : ms.length = ds.length)
    (hrb : ∀ m ∈ ms, isUnsolicited m = false) :
    run [] (ds.map cmdInput ++ ms.map lineInput) =
      some ([], (ds.zip ms).map fun p => Effect.delivered p.1 (toReply p.2)) := by
  rw [run_append, run_cmds ds []]
  simp only [List.nil_append, Option.some_bind]
  have hrep := run_replies ms ds [] hlen hrb
  rw [List.append_nil] at hrep
  rw [hrep]
  simp

/-- C3 witness: two commands with destinations `7` and `8`, then a `Saved`
reply and a `Profiles` reply — delivered in send order. -/
theorem c3_fifo_correlation_witness :
    run [] ([7, 8].map cmdInput ++
        ([.saved ⟨true⟩, .profiles ⟨none, "p1"⟩] : List Message).map lineInput) =
      some ([], [.delivered 7 (.ok (.saved ⟨true⟩)),
        .delivered 8 (.ok (.profiles ⟨none, "p1"⟩))]) := by
  have h := c3_fifo_correlation [7, 8] [.saved ⟨true⟩, .profiles ⟨none, "p1"⟩]
    rfl (by decide)
  simpa [toReply] using h

/-! ## C4 — the loop never terminates -/

/-- C4: the claim states the worker loop ends exactly when the command
channel reports all producers dropped.  In the source the `Disconnected`
arm of the `try_recv` match is empty — despite the adjacent `bail out of
the event loop` comment there is no `break` anywhere in the loop body, so
no iteration outcome ever exits the loop: the translation can never produce
`exitLoop`, in particular not on a disconnected command channel. -/
theorem c4_loop_never_exits :
    (∀ (q : List Nat) (inp : IterInput), isExit (iterate q inp) = false) ∧
    isExit (iterate [] ⟨none, .disconnected, true, fun _ => true, true⟩) =
      false := by
  constructor
  · intro q inp
    unfold iterate
    split
    · rfl
    · split
      · rfl
      · rfl
  · rfl

/-! ## C5 — `subscribe` clones a shared queue, not a broadcast stream -/

/-- C5 counterexample: the worker publishes one heartbeat; subscriber A
(through one clone of the receiver) receives it, after which subscriber B
(another clone of the same receiver) receives nothing.  The published value
did not reach every subscriber, refuting the fan-out claim. -/
theorem c5_two_subscribers_counterexample :
    twoSubscriberScenario = (some (.heartbeat ⟨1⟩), none) := rfl

/-- C5 amended: `subscribe` returns a clone of the worker-side receiver;
all clones are handles onto one shared FIFO queue, so a receive through any
handle pops the oldest value for all of them, and across all subscribers
combined each published message is received exactly once, in publish
order. -/
theorem c5_shared_queue_single_delivery :
    (∀ q : List Message, subscribeClone q = q) ∧
    (∀ (m : Message) (q : List Message), recvQ (m :: q) = some (m, q)) ∧
    recvQ ([] : List Message) = none ∧
    (∀ (q : List Message) (m : Message), drainAllQ (publishQ q m) = q ++ [m]) := by
  refine ⟨fun q => rfl, fun m q => rfl, rfl, ?_⟩
  intro q m
  induction q with
  | nil => rfl
  | cons x xs ih =>
    simp only [publishQ, List.cons_append, drainAllQ, List.append_eq] at ih ⊢
    rw [ih]

end Bongoknob

namespace Bongoknob

/-! ## C6 — worker panics the spec says it must contain -/

/-- C6: the claim states the worker loop survives a transport write failure
(fatal only to the in-flight command) and treats a non-UTF-8 record as a
contained decode error.  Evaluating the code refutes both parts: a failing
write while sending a command hits `port.write_all(..).unwrap()` and panics
the worker (the source marks this `TODO fix unwraps here`), and a framed
record containing the byte `0xFF` hits `String::from_utf8(line).unwrap()`
and panics the read step. -/
theorem c6_write_failure_and_bad_utf8_panic :
    iterate [] ⟨none, .ok (some 3), false, fun _ => true, true⟩ = .panicked ∧
    readStep [] [255, 10] = none := by
  constructor
  · rfl
  · unfold readStep
    simp only [List.nil_append]
    rw [drainLoop_step [255, 10] none 1 rfl, if_neg (by decide)]

/-! ## C7 — delivery to a dropped destination panics -/

/-- C7: the claim states that a reply delivered to a destination whose
receiver was dropped is simply discarded and the worker continues.
Evaluating the code refutes this: with destination `5` pending and its
receiver dropped, an arriving `Saved` reply makes
`command_buffer.remove(0).send(..).unwrap()` panic the worker. -/
theorem c7_dropped_destination_panics :
    iterate [5] ⟨some (some (.saved ⟨true⟩)), .empty, true, fun _ => false,
      true⟩ = .panicked := rfl

/-! ## C8 — reply-bearing message with an empty queue is discarded -/

theorem iterate_discard (m : Message) (hm1 : isUnsolicited m = false)
    (hm2 : isErrorMsg m = false) :
    iterate [] (lineInput m) = .next [] [] := by
  cases m <;>
    simp [iterate, cmdStep, lineStep, lineInput, isUnsolicited, isErrorMsg]
      at hm1 hm2 ⊢

/-- C8: a reply-bearing message other than `DeviceError` arriving while the
correlation queue is empty is silently discarded — the queue is left empty,
no effect is produced — and a destination queued afterwards still receives
the next reply-bearing message. -/
theorem c8_empty_queue_discard (m m2 : Message) (d : Nat)
    (hm1 : isUnsolicited m = false) (hm2 : isErrorMsg m = false)
    (hm3 : isUnsolicited m2 = false) :
    run [] [lineInput m, cmdInput d, lineInput m2] =
      some ([], [.delivered d (toReply m2)]) := by
  have h3 : iterate [d] (lineInput m2) = .next [] [.delivered d (toReply m2)] :=
    iterate_reply m2 d [] hm3
  simp [run, iterate_discard m hm1 hm2, iterate_cmd, h3]

/-- C8 witness: a `Saved` reply with the queue empty is dropped, after which
destination `3` receives the next `Profiles` reply. -/
theorem c8_empty_queue_discard_witness :
    run [] [lineInput (.saved ⟨true⟩), cmdInput 3,
        lineInput (.profiles ⟨none, "p1"⟩)] =
      some ([], [.delivered 3 (.ok (.profiles ⟨none, "p1"⟩))]) :=
  c8_empty_queue_discard (.saved ⟨true⟩) (.profiles ⟨none, "p1"⟩) 3 rfl rfl rfl

/-! ## C9 — event decoding -/

theorem land_pow_bne (ks i : Nat) : (Nat.land ks (2 ^ i) != 0) = ks.testBit i := by
  have h : Nat.land ks (2 ^ i) = (ks.testBit i).toNat * 2 ^ i :=
    Nat.and_two_pow ks i
  rw [h]
  cases hb : ks.testBit i with
  | false => simp
  | true =>
    simp only [Bool.toNat_true, one_mul]
    have : (2 : Nat) ^ i ≠ 0 := by positivity
    simp [bne, this]

theorem keysOfKs_testBit (ks : Nat) :
    keysOfKs (some ks) =
      ⟨ks.testBit 0, ks.testBit 1, ks.testBit 2, ks.testBit 3⟩ := by
  have h0 := land_pow_bne ks 0
  have h1 := land_pow_bne ks 1
  have h2 := land_pow_bne ks 2
  have h3 := land_pow_bne ks 3
  norm_num at h0 h1 h2 h3
  simp [keysOfKs, h0, h1, h2, h3]

/-- C9 counterexample: the claim states that an object with a `kd` field and
no `p` decodes to a `KeyEvent::Down` whose id IS that field's value.  For
`{"kd": 300}` the decoder applies the `as u8` cast and produces id `44`,
not `300`. -/
theorem c9_kd_truncation_counterexample :
    Event.fromJson (.obj [("kd", .num 300)]) =
      some (.key (.down ⟨false, false, false, false⟩ 44)) ∧
    ¬ Event.fromJson (.obj [("kd", .num 300)]) =
      some (.key (.down ⟨false, false, false, false⟩ 300)) := by
  constructor
  · rfl
  · decide

end Bongoknob

namespace Bongoknob

/-- C9 (amended): event decoding is disambiguated by field presence with `p`
winning; an object with a `kd` (resp. `ku`) field and no `p` decodes to a
`Down` (resp. `Up`) key event whose id is the field's value REDUCED MOD 256
(the `as u8` cast); with `ks` absent all four keys are false, and with `ks`
present key `i` is true exactly when bit `2^i` of `ks` is set.  Concretely,
`{"p":42}` gives `Position(42)` and `{"kd":5}` gives `Down` with id `5` and
all keys false. -/
theorem c9_event_decode :
    Event.fromJson (.obj [("p", .num 42)]) = some (.position 42) ∧
    Event.fromJson (.obj [("kd", .num 5)]) =
      some (.key (.down ⟨false, false, false, false⟩ 5)) ∧
    (∀ (fs : List (String × Json)) (acc : EventAcc) (n : Nat),
      visitEventFields fs ⟨none, none, none, none⟩ = some acc →
      acc.p = some n → Event.fromJson (.obj fs) = some (.position n)) ∧
    (∀ (fs : List (String × Json)) (acc : EventAcc) (n : Nat),
      visitEventFields fs ⟨none, none, none, none⟩ = some acc →
      acc.p = none → acc.kd = some n →
      Event.fromJson (.obj fs) =
        some (.key (.down (keysOfKs acc.ks) (n % 256)))) ∧
    (∀ (fs : List (String × Json)) (acc : EventAcc) (n : Nat),
      visitEventFields fs ⟨none, none, none, none⟩ = some acc →
      acc.p = none → acc.kd = none → acc.ku = some n →
      Event.fromJson (.obj fs) =
        some (.key (.up (keysOfKs acc.ks) (n % 256)))) ∧
    (∀ ks : Nat, keysOfKs (some ks) =
      ⟨ks.testBit 0, ks.testBit 1, ks.testBit 2, ks.testBit 3⟩) ∧
    keysOfKs none = ⟨false, false, false, false⟩ := by
  refine ⟨rfl, rfl, ?_, ?_, ?_, keysOfKs_testBit, rfl⟩
  · intro fs acc n hv hp
    simp [Event.fromJson, hv, eventOfAcc, hp]
  · intro fs acc n hv hp hkd
    simp [Event.fromJson, hv, eventOfAcc, hp, hkd]
  · intro fs acc n hv hp hkd hku
    simp [Event.fromJson, hv, eventOfAcc, hp, hkd, hku]

/-- C9 witness: the `kd`-with-`ks` clause applied at `{"kd":5,"ks":4}` —
down event, id 5, only key 2 pressed. -/
theorem c9_event_decode_witness :
    Event.fromJson (.obj [("kd", .num 5), ("ks", .num 4)]) =
      some (.key (.down ⟨false, false, true, false⟩ 5)) :=
  c9_event_decode.2.2.2.1 [("kd", .num 5), ("ks", .num 4)]
    ⟨none, some 4, some 5, none⟩ 5 rfl rfl rfl

/-! ## C10 — color round-trip -/

/-- C10: serializing `Some(Color{r,g,b})` writes the 3-element array
`[r, g, b]` and deserializing it restores `Some` of the same color;
serializing `None` writes `null` and deserializing restores `None`. -/
theorem c10_color_roundtrip (r g b : Nat) (hr : r < 256) (hg : g < 256)
    (hb : b < 256) :
    deserialize_color (serialize_color (some ⟨r, g, b⟩)) =
      some (some ⟨r, g, b⟩) ∧
    deserialize_color (serialize_color none) = some none := by
  constructor
  · simp [serialize_color, deserialize_color, asU8, hr, hg, hb]
  · rfl

/-- C10 witness: the round trip at the color `(1, 2, 3)`. -/
theorem c10_color_roundtrip_witness :
    deserialize_color (serialize_color (some ⟨1, 2, 3⟩)) =
      some (some ⟨1, 2, 3⟩) ∧
    deserialize_color (serialize_color none) = some none :=
  c10_color_roundtrip 1 2 3 (by decide) (by decide) (by decide)

end Bongoknob
